import Mathlib

/-!
Verification of the secmsg directory/rendezvous server core
(`src/server.rs`): the directory data model, the Register / Login /
Connect / PublicKey request handlers, the route builder, the wire
framing, and the peer-address derivation.

Embedding conventions:

* `crypto_lib::Key` (a 32-byte public key, `[u8; 32]`) is modelled as a
  list of bytes; the handlers treat keys as opaque values, so the fixed
  length is never load-bearing here.
* The shared directory `UserMap = Arc<Mutex<HashMap<String, KnownUser>>>`
  is modelled as an association list in iteration order.  Every handler
  in the source takes the mutex once and performs its whole
  check/lookup/insert inside that single critical section
  (`register_response` binds the guard for its entire match,
  `login_response` and `connect_response` hold it for their lookup), so
  each handler invocation is one atomic step on the directory state and
  concurrent executions are modelled by sequences of such steps.
  `HashMap` iteration order is unspecified, so the model's list order
  stands in for it; insertion position of a new binding is immaterial to
  every claim proved below.
* Machine integers are `Nat` with explicit bounds: the `u32` length
  field of the wire framing is serialized through
  `mem::transmute`, i.e. the machine's native byte order on both the
  write and the read side; the model fixes one concrete order
  (little-endian, the order on the x86 machines the server targets).
  The framing round-trip facts proved below depend only on the two
  directions being mutual inverses, which holds for any single native
  order.
* Fallible operations return `Option` / `Except`.  A Rust `panic!` via
  `.unwrap()` on a handler thread aborts that connection with no reply;
  it is modelled as `none` (no response produced).
-/

/-- Modelled from the spec: `crypto_lib` is not under `src/`; per spec §3
a public key is a fixed-size byte array (`bytes[32]`), treated as an
opaque immutable byte string (§6).  Modelled as a byte list. -/
abbrev Key := List Nat

/-- Translation of `struct KnownUser` (server.rs lines 35-41): a
registered directory record with handle, password, listening address and
public key. -/
structure KnownUser where
  handle : String
  password : String
  addr : String
  public_key : Key
deriving DecidableEq, Repr

/-- Translation of `type UserMap` (server.rs line 54): the shared
`HashMap<String, KnownUser>` directory, modelled as an association list
in iteration order (see the header comment for the mutex discipline). -/
abbrev UserMap := List (String × KnownUser)

/-- Translation of `HashMap::get` on the directory: the value bound to
the first occurrence of the key, if any. -/
def mapGet : UserMap → String → Option KnownUser
  | [], _ => none
  | (k, v) :: rest, key => if k = key then some v else mapGet rest key

/-- Translation of `HashMap::insert` for a key that is absent (the only
way the source inserts): adds the binding.  `HashMap` iteration order is
unspecified, so the model places the new binding at the front. -/
def mapInsert (users : UserMap) (k : String) (v : KnownUser) : UserMap :=
  (k, v) :: users

/-- Modelled from the spec: `state::User` is not under `src/`; per spec
§3 it is the UserRecord view echoed to clients, carrying handle, network
address and public key. -/
structure User where
  handle : String
  addr : String
  public_key : Key
deriving DecidableEq, Repr

/-- Modelled from the spec: `messages::ResponseType` is not under
`src/`; per spec §3 the response `Outcome` is one of
`User(view) | Error(message) | Connection(route) | PublicKey(bytes)`. -/
inductive ResponseType where
  | User (u : User)
  | Error (s : String)
  | Connection (route : List (String × Key))
  | PublicKey (k : Key)
deriving DecidableEq, Repr

/-- Modelled from the spec: `messages::ToUser` is not under `src/`; the
server core only ever builds the `ServerResponse(Outcome)` variant
(spec §3). -/
inductive ToUser where
  | ServerResponse (r : ResponseType)
deriving DecidableEq, Repr

/-- Modelled from the spec: `messages::ToServer` is not under `src/`;
per spec §3 the requests are `Login{handle, credential, key}`,
`Register{handle, credential, key}`, `Connect{target_handle, key}`,
`PublicKey{key}`. -/
inductive ToServer where
  | Login (username password : String) (key : Key)
  | Register (handle password : String) (key : Key)
  | Connect (name : String) (public_key : Key)
  | PublicKey (key : Key)
deriving DecidableEq, Repr

/-- Modelled from the spec: `messages::MessageType` is not under `src/`;
the tagged union's two top-level directions (spec §3). -/
inductive MessageType where
  | Server (m : ToServer)
  | User (m : ToUser)
deriving DecidableEq, Repr

/-- Modelled from the spec: `messages::Message` and `Message::new` are
not under `src/`; per spec §4.2, `seal` encodes the protocol message and
encrypts it against a route, the cipher itself being an external
collaborator.  A sealed message is therefore modelled as its plaintext
content together with the route it is sealed against. -/
structure Message where
  content : MessageType
  route : List (String × Key)
deriving DecidableEq, Repr

/-- Modelled from the spec: `Message::new(msg_type, route, crypto)`
(spec §4.2 `seal`); the crypto argument is the external cipher and is
dropped in the model. -/
def Message.new (content : MessageType) (route : List (String × Key)) : Message :=
  ⟨content, route⟩

/-- Translation of `gen_route` (server.rs lines 179-181): the one-hop
route back to the requester. -/
def gen_route (user_ip : String) (key : Key) : List (String × Key) :=
  [(user_ip, key)]

/-- Translation of `generate_route` (server.rs lines 184-191): the
destination hop followed by the first `min(3, |users|)` directory
values in iteration order. -/
def generate_route (users : UserMap) (dest : String × Key) : List (String × Key) :=
  dest :: (users.map (fun p => (p.2.addr, p.2.public_key))).take (min 3 users.length)

/-- Translation of `login_response` (server.rs lines 193-237).  The
route is the one-hop route back to the requester's observed address with
the requester-supplied key; the directory is only read (`get` under the
lock), never written. -/
def login_response (username password : String) (users : UserMap)
    (usr_ip : String) (key : Key) : Message :=
  let route := gen_route usr_ip key
  match mapGet users username with
  | some u =>
    if password = u.password then
      Message.new
        (MessageType.User (ToUser.ServerResponse (ResponseType.User
          ⟨u.handle, usr_ip, u.public_key⟩))) route
    else
      Message.new
        (MessageType.User (ToUser.ServerResponse
          (ResponseType.Error "Incorrect password."))) route
  | none =>
    Message.new
      (MessageType.User (ToUser.ServerResponse
        (ResponseType.Error "User does not exist."))) route

/-- Translation of `register_response` (server.rs lines 239-270): one
atomic critical section (the source binds the mutex guard for the whole
match) that checks the handle and inserts only if absent, returning the
new directory together with the response. -/
def register_response (user : KnownUser) (users : UserMap) : UserMap × Message :=
  let route := gen_route user.addr user.public_key
  match mapGet users user.handle with
  | some _ =>
    (users,
      Message.new
        (MessageType.User (ToUser.ServerResponse
          (ResponseType.Error "Username already in use."))) route)
  | none =>
    (mapInsert users user.handle user,
      Message.new
        (MessageType.User (ToUser.ServerResponse (ResponseType.User
          ⟨user.handle, user.addr, user.public_key⟩))) route)

/-- Translation of `connect_response` (server.rs lines 272-296): a
lookup under the lock (read-only); on success the response carries
`generate_route` seeded with the target's stored address and key, on
failure the error string interpolates the requested name. -/
def connect_response (name : String) (users : UserMap)
    (route : List (String × Key)) : Message :=
  match mapGet users name with
  | some user =>
    Message.new
      (MessageType.User (ToUser.ServerResponse (ResponseType.Connection
        (generate_route users (user.addr, user.public_key))))) route
  | none =>
    Message.new
      (MessageType.User (ToUser.ServerResponse
        (ResponseType.Error ("Could not find user " ++ name ++ ".")))) route

/-- Translation of `create_response` (server.rs lines 298-315),
explicitly threading the directory state: `addr` is the requester's
observed address (`addr_to_string` of the peer).  Only `Register`
changes the directory; a `PublicKey` request or a non-`Server` message
yields `Err(())`. -/
def create_response (msg : MessageType) (users : UserMap) (addr : String) :
    UserMap × Except Unit Message :=
  match msg with
  | MessageType.Server m =>
    match m with
    | ToServer.Login username password key =>
      (users, Except.ok (login_response username password users addr key))
    | ToServer.Register handle password key =>
      let r := register_response ⟨handle, password, addr, key⟩ users
      (r.1, Except.ok r.2)
    | ToServer.Connect name public_key =>
      (users, Except.ok (connect_response name users (gen_route addr public_key)))
    | ToServer.PublicKey _ => (users, Except.error ())
  | MessageType.User _ => (users, Except.error ())

/-- Translation of `handler` (server.rs lines 317-321) after the inbound
message has been decrypted: `create_response(...).unwrap()` panics on
`Err`, aborting the connection's thread with no reply, modelled as
`none`. -/
def handler (msg : MessageType) (users : UserMap) (addr : String) :
    UserMap × Option Message :=
  let r := create_response msg users addr
  (r.1, r.2.toOption)

/-- Translation of `pub_key_handler` (server.rs lines 323-346): on the
bootstrap endpoint only a `ToServer::PublicKey` request is answered,
with the server's public key routed back to the requester; every other
variant returns without sending (`none`). -/
def pub_key_handler (msg : MessageType) (pubkey : Key) (usr_ip : String) :
    Option Message :=
  match msg with
  | MessageType.Server (ToServer.PublicKey pk) =>
    some (Message.new
      (MessageType.User (ToUser.ServerResponse (ResponseType.PublicKey pubkey)))
      (gen_route usr_ip pk))
  | _ => none

/-- Modelled abstraction of Rust's `SocketAddr`: the peer address of a
connection, carrying the IP (four octets or eight 16-bit segments) and
the connection's source port. -/
inductive SocketAddr where
  | V4 (o0 o1 o2 o3 : Nat) (port : Nat)
  | V6 (s0 s1 s2 s3 s4 s5 s6 s7 : Nat) (port : Nat)
deriving DecidableEq, Repr

/-- Translation of `addr_to_string` (server.rs lines 165-177): formats
the peer IP with the literal port `:5000` appended; the connection's
source port is never consulted.  An IPv6 peer's eight segments are
printed in decimal and joined with dots, exactly as the source's
`format!` string does. -/
def addr_to_string (a : SocketAddr) : String :=
  match a with
  | SocketAddr.V4 o0 o1 o2 o3 _port =>
    toString o0 ++ "." ++ toString o1 ++ "." ++ toString o2 ++ "." ++
      toString o3 ++ ":5000"
  | SocketAddr.V6 s0 s1 s2 s3 s4 s5 s6 s7 _port =>
    toString s0 ++ "." ++ toString s1 ++ "." ++ toString s2 ++ "." ++
      toString s3 ++ "." ++ toString s4 ++ "." ++ toString s5 ++ "." ++
      toString s6 ++ "." ++ toString s7 ++ ":5000"

/-- Serialization of a `u32` into its four bytes in the machine's native
order, as `mem::transmute::<u32, [u8; 4]>` does (modelled little-endian;
see the header comment). -/
def u32_bytes (n : Nat) : List Nat :=
  [n % 256, n / 256 % 256, n / 65536 % 256, n / 16777216 % 256]

/-- Deserialization of four bytes into a `u32` in the same native order,
as `mem::transmute::<[u8; 4], u32>` does in `receive_message`. -/
def bytes_u32 (b : List Nat) : Nat :=
  match b with
  | [b0, b1, b2, b3] => b0 + 256 * b1 + 65536 * b2 + 16777216 * b3
  | _ => 0

/-- Translation of `send_response` (server.rs lines 150-163) at the byte
level: if the payload length is at least `u32::max_value()` (that is,
`2^32 - 1`) the function returns without writing anything (`none`);
otherwise it writes the 4-byte length field followed by the payload. -/
def send_response (data : List Nat) : Option (List Nat) :=
  if 4294967295 ≤ data.length then none
  else some (u32_bytes data.length ++ data)

/-- Translation of the framing half of `receive_message` (server.rs
lines 130-147): read exactly 4 bytes (failing if the stream closes
early), reinterpret them as the `u32` payload size, then read exactly
that many payload bytes (again failing on early close).  Decryption and
decoding of the returned payload are external collaborators. -/
def receive_message (stream : List Nat) : Option (List Nat) :=
  if stream.length < 4 then none
  else
    let size := bytes_u32 (stream.take 4)
    let rest := stream.drop 4
    if rest.length < size then none else some (rest.take size)

/-- Directory invariant (spec §3): every record is stored under a key
equal to its `handle` field, and no two records share a handle. -/
def dirInv (d : UserMap) : Prop :=
  (d.map Prod.fst).Nodup ∧ ∀ p ∈ d, p.1 = p.2.handle

instance (d : UserMap) : Decidable (dirInv d) := by
  unfold dirInv; infer_instance

/-- Whether a server response reports success (`Outcome.User`). -/
def isRegisterSuccess (m : Message) : Bool :=
  match m.content with
  | MessageType.User (ToUser.ServerResponse (ResponseType.User _)) => true
  | _ => false

/-- Sequential execution of a batch of Register calls (each one is one
atomic critical section in the source, so any concurrent schedule is
some sequential order): returns how many of them succeeded. -/
def register_successes : List KnownUser → UserMap → Nat
  | [], _ => 0
  | u :: us, d =>
    let r := register_response u d
    (if isRegisterSuccess r.2 then 1 else 0) + register_successes us r.1

/-! ### Helper lemmas about the directory model -/

/-- Lookup misses exactly the keys that are absent. -/
lemma mapGet_eq_none_iff (d : UserMap) (k : String) :
    mapGet d k = none ↔ k ∉ d.map Prod.fst := by
  induction d with
  | nil => simp [mapGet]
  | cons p rest ih =>
    obtain ⟨k', v⟩ := p
    by_cases h : k' = k
    · subst h
      simp [mapGet]
    · have hstep : mapGet ((k', v) :: rest) k = mapGet rest k := by
        simp [mapGet, h]
      rw [hstep, ih]
      simp only [List.map_cons, List.mem_cons]
      constructor
      · intro hk hc
        rcases hc with hc | hc
        · exact h hc.symm
        · exact hk hc
      · intro hk hc
        exact hk (Or.inr hc)

/-- A present key is looked up the same after any further binding with a
different key is added at the front. -/
lemma mapGet_cons_ne (d : UserMap) (k k' : String) (v : KnownUser)
    (h : k' ≠ k) : mapGet ((k', v) :: d) k = mapGet d k := by
  simp [mapGet, h]

/-- Registering a user whose handle is already present returns the
directory unchanged together with the conflict response. -/
lemma register_response_of_present (u : KnownUser) (d : UserMap) (x : KnownUser)
    (h : mapGet d u.handle = some x) :
    register_response u d =
      (d, Message.new (MessageType.User (ToUser.ServerResponse
        (ResponseType.Error "Username already in use.")))
        (gen_route u.addr u.public_key)) := by
  simp [register_response, h]

/-- Registering a user whose handle is absent inserts the record and
returns the success response echoing the record. -/
lemma register_response_of_absent (u : KnownUser) (d : UserMap)
    (h : mapGet d u.handle = none) :
    register_response u d =
      (mapInsert d u.handle u,
        Message.new (MessageType.User (ToUser.ServerResponse
          (ResponseType.User ⟨u.handle, u.addr, u.public_key⟩)))
        (gen_route u.addr u.public_key)) := by
  simp [register_response, h]

/-- Register preserves the directory invariant. -/
lemma dirInv_register (u : KnownUser) (d : UserMap) (h : dirInv d) :
    dirInv (register_response u d).1 := by
  obtain ⟨hnd, hkeys⟩ := h
  cases hg : mapGet d u.handle with
  | some x => rw [register_response_of_present u d x hg]; exact ⟨hnd, hkeys⟩
  | none =>
    rw [register_response_of_absent u d hg]
    refine ⟨?_, ?_⟩
    · exact List.nodup_cons.mpr ⟨(mapGet_eq_none_iff d u.handle).mp hg, hnd⟩
    · intro p hp
      rcases List.mem_cons.mp hp with hp | hp
      · subst hp; rfl
      · exact hkeys p hp

/-- When the handle is already taken, a whole batch of Register calls
for that handle all fail. -/
lemma register_successes_of_present :
    ∀ (us : List KnownUser) (d : UserMap) (h : String),
      (∀ u ∈ us, u.handle = h) → mapGet d h ≠ none →
      register_successes us d = 0 := by
  intro us
  induction us with
  | nil => intro d h _ _; rfl
  | cons u rest ih =>
    intro d h hall hpres
    obtain ⟨x, hx⟩ := Option.ne_none_iff_exists'.mp hpres
    have hu : u.handle = h := hall u (List.mem_cons_self u rest)
    have hux : mapGet d u.handle = some x := by rw [hu]; exact hx
    have hstep : register_successes (u :: rest) d =
        (if isRegisterSuccess (register_response u d).2 then 1 else 0) +
          register_successes rest (register_response u d).1 := rfl
    rw [hstep, register_response_of_present u d x hux]
    simp [isRegisterSuccess, Message.new]
    exact ih d h (fun v hv => hall v (List.mem_cons_of_mem u hv)) hpres

/-! ### Claim theorems -/

/-- C1: the directory never contains two records for the same handle —
the directory starts empty and satisfies the invariant (every record is
stored under a key equal to its handle field, no two records share a
handle), every dispatched request (each one a single atomic critical
section in the source) preserves that invariant, a Register that finds
the handle already present returns the directory unchanged with the
conflict response, and of any batch of Register calls for one handle run
from a directory not containing it, exactly one succeeds. -/
theorem registration_uniqueness :
    dirInv [] ∧
    (∀ (msg : MessageType) (d : UserMap) (a : String),
      dirInv d → dirInv (create_response msg d a).1) ∧
    (∀ (u : KnownUser) (d : UserMap),
      mapGet d u.handle ≠ none →
      register_response u d =
        (d, Message.new (MessageType.User (ToUser.ServerResponse
          (ResponseType.Error "Username already in use.")))
          (gen_route u.addr u.public_key))) ∧
    (∀ (h : String) (us : List KnownUser) (d : UserMap),
      mapGet d h = none → us ≠ [] → (∀ u ∈ us, u.handle = h) →
      register_successes us d = 1) := by
  refine ⟨⟨List.nodup_nil, by intro p hp; cases hp⟩, ?_, ?_, ?_⟩
  · intro msg d a hinv
    cases msg with
    | User m => exact hinv
    | Server m =>
      cases m with
      | Login username password key => exact hinv
      | Register handle password key => exact dirInv_register _ d hinv
      | Connect name public_key => exact hinv
      | PublicKey key => exact hinv
  · intro u d hpres
    obtain ⟨x, hx⟩ := Option.ne_none_iff_exists'.mp hpres
    exact register_response_of_present u d x hx
  · intro h us d habs hne hall
    cases us with
    | nil => exact absurd rfl hne
    | cons u rest =>
      have hu : u.handle = h := hall u (List.mem_cons_self u rest)
      have hua : mapGet d u.handle = none := by rw [hu]; exact habs
      have hstep : register_successes (u :: rest) d =
          (if isRegisterSuccess (register_response u d).2 then 1 else 0) +
            register_successes rest (register_response u d).1 := rfl
      rw [hstep, register_response_of_absent u d hua]
      simp [isRegisterSuccess, Message.new]
      apply register_successes_of_present rest (mapInsert d u.handle u) h
        (fun v hv => hall v (List.mem_cons_of_mem u hv))
      rw [mapInsert]
      simp [mapGet, hu]

/-- Witness for C1 at concrete inputs: the empty directory satisfies the
invariant, a dispatched Register preserves it, a conflicting Register
leaves a one-entry directory unchanged, and of two Register calls for
the handle "alice" run on the empty directory exactly one succeeds. -/
theorem registration_uniqueness_witness :
    dirInv ([] : UserMap) ∧
    dirInv (create_response
      (MessageType.Server (ToServer.Register "alice" "pw" [1]))
      [] "1.2.3.4:5000").1 ∧
    register_response ⟨"alice", "pw2", "5.6.7.8:5000", [2]⟩
        [("alice", ⟨"alice", "pw", "1.2.3.4:5000", [1]⟩)] =
      ([("alice", ⟨"alice", "pw", "1.2.3.4:5000", [1]⟩)],
        Message.new (MessageType.User (ToUser.ServerResponse
          (ResponseType.Error "Username already in use.")))
          (gen_route "5.6.7.8:5000" [2])) ∧
    register_successes
      [⟨"alice", "pw", "1.2.3.4:5000", [1]⟩,
       ⟨"alice", "pw2", "5.6.7.8:5000", [2]⟩] [] = 1 :=
  ⟨registration_uniqueness.1,
   registration_uniqueness.2.1 _ [] "1.2.3.4:5000" registration_uniqueness.1,
   registration_uniqueness.2.2.1 _ _ (by decide),
   registration_uniqueness.2.2.2 "alice" _ [] (by decide) (by decide) (by decide)⟩

/-- C2: a Register request for an absent handle inserts the fresh record
built from the handle, credential, the requester's observed address and
key, echoing a view whose address is that observed address; a Register
for a present handle answers the conflict error. -/
theorem register_dispatch_correct :
    ∀ (h p : String) (k : Key) (d : UserMap) (a : String),
      (mapGet d h = none →
        create_response (MessageType.Server (ToServer.Register h p k)) d a =
          (mapInsert d h ⟨h, p, a, k⟩,
            Except.ok (Message.new (MessageType.User (ToUser.ServerResponse
              (ResponseType.User ⟨h, a, k⟩))) (gen_route a k)))) ∧
      (mapGet d h ≠ none →
        create_response (MessageType.Server (ToServer.Register h p k)) d a =
          (d, Except.ok (Message.new (MessageType.User (ToUser.ServerResponse
            (ResponseType.Error "Username already in use.")))
            (gen_route a k)))) := by
  intro h p k d a
  constructor
  · intro habs
    simp [create_response, register_response_of_absent ⟨h, p, a, k⟩ d habs]
  · intro hpres
    obtain ⟨x, hx⟩ := Option.ne_none_iff_exists'.mp hpres
    simp [create_response, register_response_of_present ⟨h, p, a, k⟩ d x hx]

/-- Witness for C2: registering "alice" on the empty directory inserts
her record and echoes her observed address; registering "alice" again
yields the conflict error. -/
theorem register_dispatch_correct_witness :
    create_response (MessageType.Server (ToServer.Register "alice" "pw" [1]))
        [] "9.8.7.6:5000" =
      (mapInsert [] "alice" ⟨"alice", "pw", "9.8.7.6:5000", [1]⟩,
        Except.ok (Message.new (MessageType.User (ToUser.ServerResponse
          (ResponseType.User ⟨"alice", "9.8.7.6:5000", [1]⟩)))
          (gen_route "9.8.7.6:5000" [1]))) ∧
    create_response (MessageType.Server (ToServer.Register "alice" "x" [3]))
        [("alice", ⟨"alice", "pw", "9.8.7.6:5000", [1]⟩)] "2.2.2.2:5000" =
      ([("alice", ⟨"alice", "pw", "9.8.7.6:5000", [1]⟩)],
        Except.ok (Message.new (MessageType.User (ToUser.ServerResponse
          (ResponseType.Error "Username already in use.")))
          (gen_route "2.2.2.2:5000" [3]))) :=
  ⟨(register_dispatch_correct "alice" "pw" [1] [] "9.8.7.6:5000").1 rfl,
   (register_dispatch_correct "alice" "x" [3] _ "2.2.2.2:5000").2 (by decide)⟩

/-- C3: a Login with the stored credential answers a view carrying the
stored handle and server-known public key but the requester's observed
address; a wrong credential answers "Incorrect password."; an unknown
handle answers "User does not exist.". -/
theorem login_dispatch_correct :
    ∀ (un pw : String) (k : Key) (d : UserMap) (a : String),
      (∀ u, mapGet d un = some u → pw = u.password →
        create_response (MessageType.Server (ToServer.Login un pw k)) d a =
          (d, Except.ok (Message.new (MessageType.User (ToUser.ServerResponse
            (ResponseType.User ⟨u.handle, a, u.public_key⟩)))
            (gen_route a k)))) ∧
      (∀ u, mapGet d un = some u → pw ≠ u.password →
        create_response (MessageType.Server (ToServer.Login un pw k)) d a =
          (d, Except.ok (Message.new (MessageType.User (ToUser.ServerResponse
            (ResponseType.Error "Incorrect password.")))
            (gen_route a k)))) ∧
      (mapGet d un = none →
        create_response (MessageType.Server (ToServer.Login un pw k)) d a =
          (d, Except.ok (Message.new (MessageType.User (ToUser.ServerResponse
            (ResponseType.Error "User does not exist.")))
            (gen_route a k)))) := by
  intro un pw k d a
  refine ⟨?_, ?_, ?_⟩
  · intro u hu hpw
    simp [create_response, login_response, hu, hpw]
  · intro u hu hpw
    simp [create_response, login_response, hu, hpw]
  · intro hnone
    simp [create_response, login_response, hnone]

/-- Witness for C3 on a one-entry directory: correct password echoes the
stored record at the requester's observed address, a wrong password and
an unknown handle answer the two error strings. -/
theorem login_dispatch_correct_witness :
    create_response (MessageType.Server (ToServer.Login "alice" "pw" [7]))
        [("alice", ⟨"alice", "pw", "1.2.3.4:5000", [2]⟩)] "5.6.7.8:5000" =
      ([("alice", ⟨"alice", "pw", "1.2.3.4:5000", [2]⟩)],
        Except.ok (Message.new (MessageType.User (ToUser.ServerResponse
          (ResponseType.User ⟨"alice", "5.6.7.8:5000", [2]⟩)))
          (gen_route "5.6.7.8:5000" [7]))) ∧
    create_response (MessageType.Server (ToServer.Login "alice" "bad" [7]))
        [("alice", ⟨"alice", "pw", "1.2.3.4:5000", [2]⟩)] "5.6.7.8:5000" =
      ([("alice", ⟨"alice", "pw", "1.2.3.4:5000", [2]⟩)],
        Except.ok (Message.new (MessageType.User (ToUser.ServerResponse
          (ResponseType.Error "Incorrect password.")))
          (gen_route "5.6.7.8:5000" [7]))) ∧
    create_response (MessageType.Server (ToServer.Login "bob" "pw" [7]))
        [("alice", ⟨"alice", "pw", "1.2.3.4:5000", [2]⟩)] "5.6.7.8:5000" =
      ([("alice", ⟨"alice", "pw", "1.2.3.4:5000", [2]⟩)],
        Except.ok (Message.new (MessageType.User (ToUser.ServerResponse
          (ResponseType.Error "User does not exist.")))
          (gen_route "5.6.7.8:5000" [7]))) :=
  ⟨(login_dispatch_correct "alice" "pw" [7] _ "5.6.7.8:5000").1
      ⟨"alice", "pw", "1.2.3.4:5000", [2]⟩ (by decide) rfl,
   (login_dispatch_correct "alice" "bad" [7] _ "5.6.7.8:5000").2.1
      ⟨"alice", "pw", "1.2.3.4:5000", [2]⟩ (by decide) (by decide),
   (login_dispatch_correct "bob" "pw" [7] _ "5.6.7.8:5000").2.2 (by decide)⟩

/-- C4: a Connect for a registered target answers a Connection route
whose element 0 is the target's stored address and key, followed by the
first min(3, |directory|) directory entries in iteration order with no
entry excluded, so the route has length 1 + min(3, |directory|); a
Connect for an unknown handle answers the interpolated error string. -/
theorem connect_dispatch_correct :
    ∀ (n : String) (k : Key) (d : UserMap) (a : String),
      (∀ u, mapGet d n = some u →
        create_response (MessageType.Server (ToServer.Connect n k)) d a =
          (d, Except.ok (Message.new (MessageType.User (ToUser.ServerResponse
            (ResponseType.Connection
              ((u.addr, u.public_key) ::
                (d.map (fun p => (p.2.addr, p.2.public_key))).take
                  (min 3 d.length)))))
            (gen_route a k))) ∧
        (generate_route d (u.addr, u.public_key)).length =
          1 + min 3 d.length) ∧
      (mapGet d n = none →
        create_response (MessageType.Server (ToServer.Connect n k)) d a =
          (d, Except.ok (Message.new (MessageType.User (ToUser.ServerResponse
            (ResponseType.Error ("Could not find user " ++ n ++ "."))))
            (gen_route a k)))) := by
  intro n k d a
  constructor
  · intro u hu
    constructor
    · simp [create_response, connect_response, hu, generate_route]
    · simp only [generate_route, List.length_cons, List.length_take,
        List.length_map]
      omega
  · intro hnone
    simp [create_response, connect_response, hnone]

/-- Witness for C4 on a two-entry directory: connecting to "alice"
returns her stored hop followed by both directory entries (route length
1 + min(3, 2) = 3), and connecting to "carol" returns the interpolated
error. -/
theorem connect_dispatch_correct_witness :
    create_response (MessageType.Server (ToServer.Connect "alice" [9]))
        [("alice", ⟨"alice", "pw", "1.2.3.4:5000", [2]⟩),
         ("bob", ⟨"bob", "pb", "4.3.2.1:5000", [3]⟩)] "5.6.7.8:5000" =
      ([("alice", ⟨"alice", "pw", "1.2.3.4:5000", [2]⟩),
        ("bob", ⟨"bob", "pb", "4.3.2.1:5000", [3]⟩)],
        Except.ok (Message.new (MessageType.User (ToUser.ServerResponse
          (ResponseType.Connection
            [("1.2.3.4:5000", [2]), ("1.2.3.4:5000", [2]),
             ("4.3.2.1:5000", [3])])))
          (gen_route "5.6.7.8:5000" [9]))) ∧
    (generate_route
      [("alice", ⟨"alice", "pw", "1.2.3.4:5000", [2]⟩),
       ("bob", ⟨"bob", "pb", "4.3.2.1:5000", [3]⟩)]
      ("1.2.3.4:5000", [2])).length = 3 ∧
    create_response (MessageType.Server (ToServer.Connect "carol" [9]))
        [("alice", ⟨"alice", "pw", "1.2.3.4:5000", [2]⟩),
         ("bob", ⟨"bob", "pb", "4.3.2.1:5000", [3]⟩)] "5.6.7.8:5000" =
      ([("alice", ⟨"alice", "pw", "1.2.3.4:5000", [2]⟩),
        ("bob", ⟨"bob", "pb", "4.3.2.1:5000", [3]⟩)],
        Except.ok (Message.new (MessageType.User (ToUser.ServerResponse
          (ResponseType.Error "Could not find user carol.")))
          (gen_route "5.6.7.8:5000" [9]))) := by
  have h1 := (connect_dispatch_correct "alice" [9]
    [("alice", ⟨"alice", "pw", "1.2.3.4:5000", [2]⟩),
     ("bob", ⟨"bob", "pb", "4.3.2.1:5000", [3]⟩)] "5.6.7.8:5000").1
    ⟨"alice", "pw", "1.2.3.4:5000", [2]⟩ (by decide)
  have h2 := (connect_dispatch_correct "carol" [9]
    [("alice", ⟨"alice", "pw", "1.2.3.4:5000", [2]⟩),
     ("bob", ⟨"bob", "pb", "4.3.2.1:5000", [3]⟩)] "5.6.7.8:5000").2
    (by decide)
  refine ⟨?_, ?_, ?_⟩
  · rw [h1.1]; rfl
  · rw [h1.2]; decide
  · rw [h2]; rfl

/-- Deserializing the four bytes of a serialized `u32` restores the
value, for any value that fits in 32 bits. -/
lemma bytes_u32_u32_bytes (n : Nat) (h : n < 4294967296) :
    bytes_u32 (u32_bytes n) = n := by
  simp only [bytes_u32, u32_bytes]
  omega

/-- C5 counterexample: at a payload of length `2^32 - 1` — which is
below `2^32` — `send_response` writes nothing (its guard fires at
`u32::max_value()`), so reading a frame back does not yield the
payload. -/
theorem framing_roundtrip_counterexample :
    (send_response (List.replicate 4294967295 0)).bind receive_message ≠
      some (List.replicate 4294967295 0) ∧
    (List.replicate 4294967295 0).length < 4294967296 := by
  have hlen : (List.replicate 4294967295 (0 : Nat)).length = 4294967295 :=
    List.length_replicate _ _
  constructor
  · have h : send_response (List.replicate 4294967295 0) = none := by
      rw [send_response, if_pos (le_of_eq hlen.symm)]
    rw [h]
    exact fun hc => Option.noConfusion hc
  · rw [hlen]
    decide

/-- C5 (amended): for every payload of length strictly below
`2^32 - 1`, writing it with `send_response` and reading one frame back
with `receive_message` yields exactly the payload. -/
theorem framing_roundtrip (p : List Nat) (h : p.length < 4294967295) :
    (send_response p).bind receive_message = some p := by
  have hsend : send_response p = some (u32_bytes p.length ++ p) := by
    rw [send_response, if_neg (by omega)]
  rw [hsend, Option.some_bind]
  have htake : (u32_bytes p.length ++ p).take 4 = u32_bytes p.length := rfl
  have hdrop : (u32_bytes p.length ++ p).drop 4 = p := rfl
  have hlen : ¬((u32_bytes p.length ++ p).length < 4) := by
    simp [u32_bytes]
  unfold receive_message
  rw [if_neg hlen, htake, hdrop, bytes_u32_u32_bytes p.length (by omega)]
  simp

/-- Witness for C5's amended theorem at the payload `[1, 2, 3]`. -/
theorem framing_roundtrip_witness :
    ([1, 2, 3] : List Nat).length < 4294967295 ∧
    (send_response [1, 2, 3]).bind receive_message = some [1, 2, 3] :=
  ⟨by decide, framing_roundtrip [1, 2, 3] (by decide)⟩

/-- C6 counterexample: the payload of length `u32::max_value()` fits the
4-byte length field (its length is below `2^32`), yet `send_response`
silently returns without writing it. -/
theorem send_response_claim_counterexample :
    send_response (List.replicate 4294967295 0) = none ∧
    (List.replicate 4294967295 0).length < 4294967296 := by
  have hlen : (List.replicate 4294967295 (0 : Nat)).length = 4294967295 :=
    List.length_replicate _ _
  constructor
  · rw [send_response, if_pos (le_of_eq hlen.symm)]
  · rw [hlen]
    decide

/-- C6 (amended): `send_response` silently drops the frame — returning
without writing and without producing any error value — exactly when the
payload length is at least `u32::max_value() = 2^32 - 1`; every shorter
payload is written in full as the 4-byte length field followed by the
whole payload, never truncated. -/
theorem send_response_spec :
    ∀ p : List Nat,
      (send_response p = none ↔ 4294967295 ≤ p.length) ∧
      (p.length < 4294967295 →
        send_response p = some (u32_bytes p.length ++ p)) := by
  intro p
  constructor
  · constructor
    · intro h
      by_contra hc
      push_neg at hc
      rw [send_response, if_neg (by omega)] at h
      exact Option.noConfusion h
    · intro h
      rw [send_response, if_pos h]
  · intro h
    rw [send_response, if_neg (by omega)]

/-- Witness for C6's amended theorem: the one-byte payload `[5]` is
written as its little-endian length field followed by the payload. -/
theorem send_response_spec_witness :
    ([5] : List Nat).length < 4294967295 ∧
    send_response [5] = some [1, 0, 0, 0, 5] :=
  ⟨by decide, (send_response_spec [5]).2 (by decide)⟩

/-- C7: a PublicKey request on the bootstrap endpoint always yields the
server's public key routed back to the requester; the same variant on
the main endpoint makes the dispatcher return `Err`, so the handler
aborts with no reply; no other request variant is answered on the
bootstrap endpoint. -/
theorem bootstrap_isolation :
    ∀ (pk pubkey : Key) (ip : String) (d : UserMap) (a : String),
      pub_key_handler (MessageType.Server (ToServer.PublicKey pk)) pubkey ip =
        some (Message.new (MessageType.User (ToUser.ServerResponse
          (ResponseType.PublicKey pubkey))) (gen_route ip pk)) ∧
      handler (MessageType.Server (ToServer.PublicKey pk)) d a = (d, none) ∧
      (∀ m : ToServer, (∀ k : Key, m ≠ ToServer.PublicKey k) →
        pub_key_handler (MessageType.Server m) pubkey ip = none) ∧
      (∀ tu : ToUser, pub_key_handler (MessageType.User tu) pubkey ip = none) := by
  intro pk pubkey ip d a
  refine ⟨rfl, rfl, ?_, fun tu => rfl⟩
  intro m hm
  cases m with
  | Login username password key => rfl
  | Register handle password key => rfl
  | Connect name public_key => rfl
  | PublicKey key => exact absurd rfl (hm key)

/-- Witness for C7: a concrete bootstrap PublicKey exchange succeeds,
the same request on the main endpoint produces no reply, and a Login on
the bootstrap endpoint is not answered. -/
theorem bootstrap_isolation_witness :
    pub_key_handler (MessageType.Server (ToServer.PublicKey [4])) [9]
        "1.2.3.4:5000" =
      some (Message.new (MessageType.User (ToUser.ServerResponse
        (ResponseType.PublicKey [9]))) (gen_route "1.2.3.4:5000" [4])) ∧
    handler (MessageType.Server (ToServer.PublicKey [4])) [] "1.2.3.4:5000" =
      ([], none) ∧
    pub_key_handler (MessageType.Server (ToServer.Login "a" "b" [1])) [9]
        "1.2.3.4:5000" = none :=
  ⟨(bootstrap_isolation [4] [9] "1.2.3.4:5000" [] "1.2.3.4:5000").1,
   (bootstrap_isolation [4] [9] "1.2.3.4:5000" [] "1.2.3.4:5000").2.1,
   (bootstrap_isolation [4] [9] "1.2.3.4:5000" [] "1.2.3.4:5000").2.2.1
     (ToServer.Login "a" "b" [1]) (fun _k h => ToServer.noConfusion h)⟩

/-- C8: for a fixed directory snapshot and target hop the route builder
is a pure function — repeated calls agree — and element 0 of the route
is always the destination hop, in particular the looked-up target's
stored address and key. -/
theorem connect_determinism :
    ∀ (d : UserMap) (dest : String × Key),
      generate_route d dest = generate_route d dest ∧
      (generate_route d dest).head? = some dest ∧
      (∀ n u, mapGet d n = some u →
        (generate_route d (u.addr, u.public_key)).head? =
          some (u.addr, u.public_key)) :=
  fun _d _dest => ⟨rfl, rfl, fun _n _u _ => rfl⟩

/-- Witness for C8: on a one-entry directory, the route seeded with the
looked-up record for "alice" starts at her stored address and key. -/
theorem connect_determinism_witness :
    (generate_route [("alice", ⟨"alice", "pw", "1.2.3.4:5000", [2]⟩)]
      ("1.2.3.4:5000", [2])).head? = some ("1.2.3.4:5000", [2]) :=
  (connect_determinism [("alice", ⟨"alice", "pw", "1.2.3.4:5000", [2]⟩)]
    ("0.0.0.0:5000", [])).2.2 "alice"
    ⟨"alice", "pw", "1.2.3.4:5000", [2]⟩ (by decide)

/-- C9: dispatched Login and Connect requests leave the directory
exactly as it was, and a record present in the directory is still bound,
byte for byte, to its handle after any dispatched request. -/
theorem directory_read_only :
    (∀ (un pw : String) (k : Key) (d : UserMap) (a : String),
      (create_response (MessageType.Server (ToServer.Login un pw k)) d a).1 = d) ∧
    (∀ (n : String) (k : Key) (d : UserMap) (a : String),
      (create_response (MessageType.Server (ToServer.Connect n k)) d a).1 = d) ∧
    (∀ (msg : MessageType) (d : UserMap) (a : String) (h : String)
        (u : KnownUser),
      mapGet d h = some u →
      mapGet (create_response msg d a).1 h = some u) := by
  refine ⟨fun _ _ _ _ _ => rfl, fun _ _ _ _ => rfl, ?_⟩
  intro msg d a h u hu
  cases msg with
  | User m => exact hu
  | Server m =>
    cases m with
    | Login username password key => exact hu
    | Connect name public_key => exact hu
    | PublicKey key => exact hu
    | Register handle password key =>
      cases hg : mapGet d handle with
      | some x =>
        have hs : (create_response
            (MessageType.Server (ToServer.Register handle password key)) d a).1 = d := by
          simp [create_response,
            register_response_of_present ⟨handle, password, a, key⟩ d x hg]
        rw [hs]
        exact hu
      | none =>
        have hne : handle ≠ h := by
          intro he
          rw [he, hu] at hg
          exact Option.noConfusion hg
        have hs : (create_response
            (MessageType.Server (ToServer.Register handle password key)) d a).1 =
            mapInsert d handle ⟨handle, password, a, key⟩ := by
          simp [create_response,
            register_response_of_absent ⟨handle, password, a, key⟩ d hg]
        rw [hs, mapInsert, mapGet_cons_ne d h handle _ hne]
        exact hu

/-- Witness for C9: after a dispatched Register for "bob", the record of
"alice" is still bound unchanged to her handle. -/
theorem directory_read_only_witness :
    mapGet (create_response (MessageType.Server (ToServer.Register "bob" "pb" [3]))
      [("alice", ⟨"alice", "pw", "1.2.3.4:5000", [2]⟩)] "4.4.4.4:5000").1
      "alice" = some ⟨"alice", "pw", "1.2.3.4:5000", [2]⟩ :=
  directory_read_only.2.2 (MessageType.Server (ToServer.Register "bob" "pb" [3]))
    [("alice", ⟨"alice", "pw", "1.2.3.4:5000", [2]⟩)] "4.4.4.4:5000" "alice"
    ⟨"alice", "pw", "1.2.3.4:5000", [2]⟩ (by decide)

/-- C10: the directory-visible address of a peer is its IP with the
literal fixed port string ":5000" appended, independent of the
connection's source port: dotted-decimal octets for IPv4, and the eight
16-bit segments printed in decimal and joined by dots for IPv6. -/
theorem addr_derivation :
    ∀ (o0 o1 o2 o3 sp sp' : Nat),
      addr_to_string (SocketAddr.V4 o0 o1 o2 o3 sp) =
        toString o0 ++ "." ++ toString o1 ++ "." ++ toString o2 ++ "." ++
          toString o3 ++ ":5000" ∧
      addr_to_string (SocketAddr.V4 o0 o1 o2 o3 sp) =
        addr_to_string (SocketAddr.V4 o0 o1 o2 o3 sp') ∧
      (∀ s0 s1 s2 s3 s4 s5 s6 s7 : Nat,
        addr_to_string (SocketAddr.V6 s0 s1 s2 s3 s4 s5 s6 s7 sp) =
          toString s0 ++ "." ++ toString s1 ++ "." ++ toString s2 ++ "." ++
            toString s3 ++ "." ++ toString s4 ++ "." ++ toString s5 ++ "." ++
            toString s6 ++ "." ++ toString s7 ++ ":5000" ∧
        addr_to_string (SocketAddr.V6 s0 s1 s2 s3 s4 s5 s6 s7 sp) =
          addr_to_string (SocketAddr.V6 s0 s1 s2 s3 s4 s5 s6 s7 sp')) :=
  fun _ _ _ _ _ _ =>
    ⟨rfl, rfl, fun _ _ _ _ _ _ _ _ => ⟨rfl, rfl⟩⟩
